import Mathlib

/-!
# Verification of the rust-token-server specification

Shallow embedding of the identity-token service (signing/validation keys,
token fields, RSA blind signatures, refresh-token store, admin API handlers
and the blind-token client) together with proofs settling the frozen claims.

Machine integers are modelled as `Nat`/`Int` with explicit reductions
modulo `2 ^ w` where the Rust code can overflow.  Fallible Rust code
(`Result`) is modelled with `Except`; Rust panics are modelled by a
dedicated `PanicOr` wrapper so that a panic is distinguishable from a
cleanly returned error.
-/

namespace TokenServer

/-! ## Bytes and 32-bit arithmetic

A byte is a `Nat` expected to be `< 256`; a word is a `Nat` reduced
modulo `2 ^ 32` at every operation, mirroring `u32` arithmetic of the
`sha2` crate. -/

/-- Reduce to 32 bits. -/
def mask32 (x : Nat) : Nat := x % 4294967296

/-- `u32` addition (wrapping). -/
def add32 (a b : Nat) : Nat := mask32 (a + b)

/-- 32-bit right rotation. -/
def rotr32 (k x : Nat) : Nat := mask32 ((x >>> k) ||| (x <<< (32 - k)))

/-! ## SHA-256

Modelled from the spec: the source delegates hashing to the external
`sha2` crate; this is the standard FIPS 180-4 SHA-256 over a byte list. -/

/-- SHA-256 round constants. -/
def sha256K : List Nat :=
  [1116352408, 1899447441, 3049323471, 3921009573, 961987163, 1508970993,
   2453635748, 2870763221, 3624381080, 310598401, 607225278, 1426881987,
   1925078388, 2162078206, 2614888103, 3248222580, 3835390401, 4022224774,
   264347078, 604807628, 770255983, 1249150122, 1555081692, 1996064986,
   2554220882, 2821834349, 2952996808, 3210313671, 3336571891, 3584528711,
   113926993, 338241895, 666307205, 773529912, 1294757372, 1396182291,
   1695183700, 1986661051, 2177026350, 2456956037, 2730485921, 2820302411,
   3259730800, 3345764771, 3516065817, 3600352804, 4094571909, 275423344,
   430227734, 506948616, 659060556, 883997877, 958139571, 1322822218,
   1537002063, 1747873779, 1955562222, 2024104815, 2227730452, 2361852424,
   2428436474, 2756734187, 3204031479, 3329325298]

/-- SHA-256 initial hash state. -/
def sha256H0 : List Nat :=
  [1779033703, 3144134277, 1013904242, 2773480762,
   1359893119, 2600822924, 528734635, 1541459225]

/-- Big-endian byte encoding of `n` on `k` bytes. -/
def beBytes : Nat → Nat → List Nat
  | 0, _ => []
  | k + 1, n => beBytes k (n / 256) ++ [n % 256]

/-- Group a byte list into big-endian 32-bit words. -/
def bytesToWords : List Nat → List Nat
  | a :: b :: c :: d :: rest => (((a * 256 + b) * 256 + c) * 256 + d) :: bytesToWords rest
  | _ => []

/-- SHA-256 padding: `0x80`, zero bytes, 64-bit big-endian bit length. -/
def sha256pad (msg : List Nat) : List Nat :=
  let len := msg.length
  let padZeros := (119 - len % 64) % 64
  msg ++ [0x80] ++ List.replicate padZeros 0 ++ beBytes 8 (len * 8)

/-- σ₀ message-schedule function. -/
def schedSigma0 (x : Nat) : Nat := (rotr32 7 x) ^^^ (rotr32 18 x) ^^^ (x >>> 3)

/-- σ₁ message-schedule function. -/
def schedSigma1 (x : Nat) : Nat := (rotr32 17 x) ^^^ (rotr32 19 x) ^^^ (x >>> 10)

/-- Σ₀ compression function. -/
def roundSigma0 (x : Nat) : Nat := (rotr32 2 x) ^^^ (rotr32 13 x) ^^^ (rotr32 22 x)

/-- Σ₁ compression function. -/
def roundSigma1 (x : Nat) : Nat := (rotr32 6 x) ^^^ (rotr32 11 x) ^^^ (rotr32 25 x)

/-- Extend the 16-word schedule by `k` further words. -/
def extendSchedule (ws : List Nat) : Nat → List Nat
  | 0 => ws
  | k + 1 =>
    let i := ws.length
    let w := add32 (add32 (ws.getD (i - 16) 0) (schedSigma0 (ws.getD (i - 15) 0)))
                   (add32 (ws.getD (i - 7) 0) (schedSigma1 (ws.getD (i - 2) 0)))
    extendSchedule (ws ++ [w]) k

/-- One SHA-256 compression round on the 8-word state. -/
def sha256Round (st : List Nat) (kw : Nat × Nat) : List Nat :=
  match st with
  | [a, b, c, d, e, f, g, h] =>
    let ch := (e &&& f) ^^^ ((4294967295 ^^^ e) &&& g)
    let maj := ((a &&& b) ^^^ (a &&& c)) ^^^ (b &&& c)
    let t1 := add32 h (add32 (roundSigma1 e) (add32 ch (add32 kw.1 kw.2)))
    let t2 := add32 (roundSigma0 a) maj
    [add32 t1 t2, a, b, c, add32 d t1, e, f, g]
  | other => other

/-- Process one 64-byte block. -/
def sha256Block (h : List Nat) (block : List Nat) : List Nat :=
  let ws := extendSchedule (bytesToWords block) 48
  let st := (sha256K.zip ws).foldl sha256Round h
  (h.zip st).map (fun p => add32 p.1 p.2)

/-- Split a byte list into 64-byte chunks (fuel-driven structural recursion;
the fuel is the list length, which strictly dominates the number of chunks). -/
def chunks64F : Nat → List Nat → List (List Nat)
  | 0, _ => []
  | _, [] => []
  | fuel + 1, x :: xs => ((x :: xs).take 64) :: chunks64F fuel ((x :: xs).drop 64)

/-- Split a byte list into 64-byte chunks. -/
def chunks64 (l : List Nat) : List (List Nat) := chunks64F l.length l

/-- SHA-256 digest (32 bytes) of a byte list. -/
def sha256 (msg : List Nat) : List Nat :=
  let hs := (chunks64 (sha256pad msg)).foldl sha256Block sha256H0
  (hs.map (beBytes 4)).flatten

/-! ## Base64url without padding

From `base64::engine::general_purpose::URL_SAFE_NO_PAD` as used by
`ValidationKey::key_id`, `RsaPublicKey::key_id` and the JWK `x`
coordinates. -/

/-- Character of a 6-bit value in the url-safe alphabet. -/
def b64urlChar (n : Nat) : Char :=
  if n < 26 then Char.ofNat (65 + n)
  else if n < 52 then Char.ofNat (97 + (n - 26))
  else if n < 62 then Char.ofNat (48 + (n - 52))
  else if n = 62 then Char.ofNat 45
  else Char.ofNat 95

/-- Base64url-without-padding encoding of a byte list, as characters. -/
def b64urlEncodeChars : List Nat → List Char
  | a :: b :: c :: rest =>
    b64urlChar (a / 4) :: b64urlChar ((a % 4) * 16 + b / 16) ::
    b64urlChar ((b % 16) * 4 + c / 64) :: b64urlChar (c % 64) :: b64urlEncodeChars rest
  | [a, b] => [b64urlChar (a / 4), b64urlChar ((a % 4) * 16 + b / 16), b64urlChar ((b % 16) * 4)]
  | [a] => [b64urlChar (a / 4), b64urlChar ((a % 4) * 16)]
  | [] => []

/-- Base64url-without-padding encoding of a byte list, as a string. -/
def b64urlEncode (bytes : List Nat) : String := String.mk (b64urlEncodeChars bytes)

/-- 6-bit value of a base64url character, if valid. -/
def b64urlCharVal (c : Char) : Option Nat :=
  let n := c.toNat
  if 65 ≤ n ∧ n ≤ 90 then some (n - 65)
  else if 97 ≤ n ∧ n ≤ 122 then some (n - 97 + 26)
  else if 48 ≤ n ∧ n ≤ 57 then some (n - 48 + 52)
  else if n = 45 then some 62
  else if n = 95 then some 63
  else none

/-- Base64url-without-padding decoding of a character list. -/
def b64urlDecodeChars : List Char → Option (List Nat)
  | [] => some []
  | [_] => none
  | [a, b] => do
    let va ← b64urlCharVal a
    let vb ← b64urlCharVal b
    pure [va * 4 + vb / 16]
  | [a, b, c] => do
    let va ← b64urlCharVal a
    let vb ← b64urlCharVal b
    let vc ← b64urlCharVal c
    pure [va * 4 + vb / 16, (vb % 16) * 16 + vc / 4]
  | a :: b :: c :: d :: rest => do
    let va ← b64urlCharVal a
    let vb ← b64urlCharVal b
    let vc ← b64urlCharVal c
    let vd ← b64urlCharVal d
    let tail ← b64urlDecodeChars rest
    pure ([va * 4 + vb / 16, (vb % 16) * 16 + vc / 4, (vc % 4) * 64 + vd] ++ tail)

/-- Base64url-without-padding decoding of a string. -/
def b64urlDecode (s : String) : Option (List Nat) := b64urlDecodeChars s.data

/-- Decidable equality for `Except` results. -/
instance {ε α : Type} [DecidableEq ε] [DecidableEq α] : DecidableEq (Except ε α) := fun x y =>
  match x, y with
  | .ok a, .ok b =>
    if h : a = b then .isTrue (congrArg Except.ok h)
    else .isFalse (fun hh => h (Except.ok.inj hh))
  | .error a, .error b =>
    if h : a = b then .isTrue (congrArg Except.error h)
    else .isFalse (fun hh => h (Except.error.inj hh))
  | .ok _, .error _ => .isFalse (fun hh => Except.noConfusion hh)
  | .error _, .ok _ => .isFalse (fun hh => Except.noConfusion hh)

/-! ## Panic modelling

Rust code that calls `.unwrap()` on an `Err` aborts instead of returning;
`PanicOr` keeps that observable in the embedding. -/

/-- Result of running Rust code that may panic. -/
inductive PanicOr (α : Type) where
  /-- The code panicked (e.g. `.unwrap()` on an `Err`). -/
  | panicked
  /-- The code returned normally. -/
  | ok (val : α)
deriving DecidableEq, Repr

/-! ## Typed token fields (`common/src/token_fields`)

Each wrapper holds the raw string; the `new` constructors re-run the
`validator` predicates of the source.  `FieldError` stands for the
`InvalidField`/`validator::ValidationErrors` failure. -/

/-- Failure of a typed-field constructor (`InvalidField`). -/
inductive FieldError where
  | invalidField
deriving DecidableEq, Repr

/-- `ClientId`: wrapped string, predicate `length(min = 1)`. -/
structure ClientId where
  value : String
deriving DecidableEq, Repr

/-- `ClientId::new`: fails unless the string is non-empty. -/
def ClientId.new (s : String) : Except FieldError ClientId :=
  if 1 ≤ s.length then .ok ⟨s⟩ else .error .invalidField

/-- `SubscriberId`: wrapped string, predicate `length(min = 1)`. -/
structure SubscriberId where
  value : String
deriving DecidableEq, Repr

/-- `SubscriberId::new`: fails unless the string is non-empty. -/
def SubscriberId.new (s : String) : Except FieldError SubscriberId :=
  if 1 ≤ s.length then .ok ⟨s⟩ else .error .invalidField

/-- Absolute-URL predicate of the `validator` crate (external).
Modelled from the spec: the issuer "must parse as an absolute URL
(scheme http|https, not opaque)". -/
def urlOk (s : String) : Bool :=
  ("http://".isPrefixOf s ∧ 7 < s.length) ∨ ("https://".isPrefixOf s ∧ 8 < s.length)

/-- `Issuer`: wrapped string, predicates `length(min = 1)` and `url`. -/
structure Issuer where
  value : String
deriving DecidableEq, Repr

/-- `Issuer::new`: fails unless non-empty and an absolute URL. -/
def Issuer.new (s : String) : Except FieldError Issuer :=
  if 1 ≤ s.length ∧ urlOk s then .ok ⟨s⟩ else .error .invalidField

/-- `IdToken` (compact JWT string): predicate `length(min = 1)`. -/
structure IdTokenStr where
  value : String
deriving DecidableEq, Repr

/-- `IdToken::new`: fails unless the string is non-empty. -/
def IdTokenStr.new (s : String) : Except FieldError IdTokenStr :=
  if 1 ≤ s.length then .ok ⟨s⟩ else .error .invalidField

/-- `REFRESH_TOKEN_LEN` from `common/src/constants.rs`. -/
def REFRESH_TOKEN_LEN : Nat := 256

/-- `RefreshToken`: wrapped string; the `validator` attribute on the source
struct is `length(equal = REFRESH_TOKEN_LEN)` — a pure length check. -/
structure RefreshToken where
  value : String
deriving DecidableEq, Repr

/-- `RefreshToken::new`: runs `validate()`, i.e. only the length-256 check. -/
def RefreshToken.new (s : String) : Except FieldError RefreshToken :=
  if s.length = REFRESH_TOKEN_LEN then .ok ⟨s⟩ else .error .invalidField

/-- The 62-character alphabet of `rand::distributions::Alphanumeric`. -/
def alphanumericChars : List Char :=
  "ABCDEFGHIJKLMNOPQRSTUVWXYZabcdefghijklmnopqrstuvwxyz0123456789".data

/-- One sample of the `Alphanumeric` distribution; the entropy source is a
stream of indices into the 62-character alphabet. -/
def alphanumericSample (rng : Nat → Fin 62) (i : Nat) : Char :=
  alphanumericChars.getD (rng i) 'A'

/-- `RefreshToken::generate`: takes 256 samples from `Alphanumeric` and runs
`validate()` on the resulting string. -/
def RefreshToken.generate (rng : Nat → Fin 62) : Except FieldError RefreshToken :=
  RefreshToken.new (String.mk ((List.range REFRESH_TOKEN_LEN).map (alphanumericSample rng)))

/-- `Deserialize for RefreshToken`: the visitor returns the raw string and the
struct is built without calling `validate()`. -/
def RefreshToken.deserialize (s : String) : RefreshToken := ⟨s⟩

/-- Rust `str::split(sep)` translated to the character list. -/
def splitChar (sep : Char) : List Char → List (List Char)
  | [] => [[]]
  | c :: rest =>
    if c = sep then [] :: splitChar sep rest
    else
      match splitChar sep rest with
      | seg :: segs => (c :: seg) :: segs
      | [] => [[c]]

/-- Rust `str::split(',')`. -/
def splitComma (l : List Char) : List (List Char) := splitChar ',' l

/-- Deduplication keeping first occurrences (the `HashSet` collecting of
`Audiences::new`, with a deterministic order for the embedding). -/
def dedupGo (seen : List String) : List String → List String
  | [] => []
  | x :: xs => if x ∈ seen then dedupGo seen xs else x :: dedupGo (x :: seen) xs

/-- Set-semantics deduplication of a string list. -/
def listDedup (l : List String) : List String := dedupGo [] l

/-- `Audiences`: a set of `ClientId`, kept as a duplicate-free list. -/
structure Audiences where
  value : List String
deriving DecidableEq, Repr

/-- `Audiences::new`: splits the input on `,` and runs
`ClientId::new(s).unwrap()` on every segment — an empty segment makes the
`unwrap` panic instead of returning an error. -/
def Audiences.new (s : String) : PanicOr Audiences :=
  let segs := (splitComma s.data).map (fun cs => String.mk cs)
  if segs.all (fun seg => 1 ≤ seg.length) then .ok ⟨listDedup segs⟩ else .panicked

/-- `Audiences::contains`. -/
def Audiences.containsId (a : Audiences) (c : ClientId) : Bool := a.value.contains c.value

/-! ## Signing and validation keys (`common/src/validation_key.rs`)

The elliptic-curve arithmetic deriving the public key from the secret lives
in the external `p256`/`ed25519_compact` crates, so a `SigningKey` carries
the derived public material alongside the secret. -/

/-- `ValidationKey`: tagged public key.  The ES256 variant carries the
compressed SEC1 point (`vk.to_encoded_point(true)`), the Ed25519 variant
the 32-byte raw public key (`vk.as_ref()`). -/
inductive ValidationKey where
  | es256 (compressedPoint : List Nat)
  | ed25519 (raw : List Nat)
deriving DecidableEq, Repr

/-- The bytes hashed by `ValidationKey::key_id`. -/
def ValidationKey.keyBytes : ValidationKey → List Nat
  | .es256 pt => pt
  | .ed25519 raw => raw

/-- `ValidationKey::key_id`: base64url-without-padding of SHA-256 over the
compressed SEC1 point (ES256) or the raw 32-byte key (Ed25519). -/
def ValidationKey.key_id (vk : ValidationKey) : String :=
  b64urlEncode (sha256 vk.keyBytes)

/-- `SigningKey`: secret key plus (externally derived) public material. -/
inductive SigningKey where
  | es256 (secret : List Nat) (pubCompressedPoint : List Nat)
  | ed25519 (secret : List Nat) (pubRaw : List Nat)
deriving DecidableEq, Repr

/-- `SigningKey::validation_key`. -/
def SigningKey.validation_key : SigningKey → ValidationKey
  | .es256 _ pk => .es256 pk
  | .ed25519 _ pk => .ed25519 pk

/-- The public key of a signing key (spec §8 invariant 2 phrasing); in the
source this is exactly what `validation_key()` exposes. -/
def SigningKey.public_key (sk : SigningKey) : ValidationKey := sk.validation_key

/-- JWT header algorithm names. -/
inductive Alg where
  | ES256
  | EdDSA
deriving DecidableEq, Repr

/-- Header `alg` stamped by `authorize` (from the key variant). -/
def SigningKey.alg : SigningKey → Alg
  | .es256 _ _ => .ES256
  | .ed25519 _ _ => .EdDSA

/-! ## Claims and JWTs

`jwt_compact` (external) serializes `Claims` with standard `exp`/`nbf`/
`iat` fields and flattens the custom map.  Modelled from the spec: the
payload `sub` is exposed both through the standard `subject` field and in
the custom claim map (spec §3 `Claims`; §9 notes the source reads it from
both places). -/

/-- JSON values appearing in the custom claim map.  The only arrays the
system ever stores in claims are arrays of audience strings, so the array
variant is specialized to string elements. -/
inductive JVal where
  | jstr (s : String)
  | jbool (b : Bool)
  | jarr (a : List String)
deriving DecidableEq, Repr

/-- `JVal::as_str`. -/
def JVal.asStr : JVal → Option String
  | .jstr s => some s
  | _ => none

/-- `JVal::as_bool`. -/
def JVal.asBool : JVal → Option Bool
  | .jbool b => some b
  | _ => none

/-- `JVal::as_array` (followed by the `as_str` filter of the audience check in the source, which is the identity on string arrays). -/
def JVal.asArray : JVal → Option (List String)
  | .jarr a => some a
  | _ => none

/-- Decoded JWT claim set: standard timestamps (UNIX seconds), standard
subject, and the custom claim map. -/
structure Claims where
  expiration : Option Int
  not_before : Option Int
  issued_at : Option Int
  subject : Option String
  custom : List (String × JVal)
deriving DecidableEq, Repr

/-- `claims.custom.get(name)`. -/
def Claims.get (c : Claims) (name : String) : Option JVal :=
  (c.custom.find? (fun p => p.1 = name)).map (fun p => p.2)

/-- An idealized signature: it binds the verifying key of the signer and
the signed payload.  Modelled from the spec: the ECDSA/Ed25519 math lives
in external crates; this is the standard EUF-CMA idealization. -/
structure JwtSignature where
  signerKey : ValidationKey
  signedAlg : Alg
  payload : Claims
deriving DecidableEq, Repr

/-- A decoded JWT (the compact base64url wire form and its parser live in
the external `jwt_compact` crate). -/
structure Jwt where
  alg : Alg
  kid : Option String
  typ : String
  claims : Claims
  sig : JwtSignature
deriving DecidableEq, Repr

/-- `JWT_DURATION_MINS` from `common/src/constants.rs`. -/
def JWT_DURATION_MINS : Nat := 30

/-- `TokenBody` — `common/src/token.rs` is absent from the sources.
Modelled from the spec: "Return `TokenBody` derived by decoding the
just-signed payload; if `refresh_required`, attach a freshly generated
256-char alphanumeric `RefreshToken`" (§4.2). -/
structure TokenBody where
  id : Jwt
  refresh : Option RefreshToken
deriving DecidableEq, Repr

/-- `SigningKey::authorize`: build the custom claims (`Audiences::new` on the
client id string may panic), set `iat = now`, `exp = now + 30 min`,
`nbf = now - 10 min`, stamp the header with the validation key id, sign, and
wrap into a `TokenBody`.  `now` is the issuance instant in UNIX seconds. -/
def SigningKey.authorize (sk : SigningKey) (now : Int) (subscriber_id : SubscriberId)
    (client_id : ClientId) (issuer : Issuer) (is_admin refresh_required : Bool)
    (rng : Nat → Fin 62) : PanicOr (Except FieldError TokenBody) :=
  match Audiences.new client_id.value with
  | .panicked => .panicked
  | .ok audiences =>
    let claims : Claims := {
      expiration := some (now + (JWT_DURATION_MINS : Int) * 60)
      not_before := some (now - 10 * 60)
      issued_at := some now
      subject := some subscriber_id.value
      custom := [("iss", .jstr issuer.value), ("sub", .jstr subscriber_id.value),
                 ("aud", .jarr audiences.value), ("iad", .jbool is_admin)] }
    let key_id := sk.validation_key.key_id
    let token : Jwt := {
      alg := sk.alg
      kid := some key_id
      typ := "JWT"
      claims := claims
      sig := { signerKey := sk.validation_key, signedAlg := sk.alg, payload := claims } }
    .ok (do
      let refresh ← if refresh_required then (RefreshToken.generate rng).map some else .ok none
      .ok { id := token, refresh := refresh })

/-- Validation failure reasons (`ValidationFailed { reason }`). -/
inductive VErr where
  | signature
  | expired
  | notYetValid
  | missingClaim
  | unknownIssuer
  | unknownAudience
  | invalidField
deriving DecidableEq, Repr

/-- `ValidationOptions` (the clock is passed to `validate` explicitly).
The symmetric leeway default is 30 seconds (spec §4.2). -/
structure ValidationOptions where
  leeway : Int := 30
  allowed_issuers : Option (List Issuer) := none
  allowed_audiences : Option Audiences := none
deriving DecidableEq, Repr

/-- The default `ValidationOptions`. -/
def ValidationOptions.default : ValidationOptions := {}

/-- Signature verification performed by the per-algorithm
validator of `jwt_compact`: the header algorithm of the token must match the
stored key variant and the signature must bind this key to the payload of
the token. -/
def ValidationKey.sigOk (vk : ValidationKey) (tok : Jwt) : Bool :=
  let algMatches : Bool := match vk with
    | .es256 _ => tok.alg == Alg.ES256
    | .ed25519 _ => tok.alg == Alg.EdDSA
  algMatches && tok.sig.signerKey == vk && tok.sig.signedAlg == tok.alg
    && tok.sig.payload == tok.claims

/-- `validate_maturity` then `validate_expiration` on the decoded claims:
errors when a time claim is absent, and checks `nbf`/`exp` against `now`
with the symmetric leeway. -/
def checkTimes (claims : Claims) (leeway now : Int) : Except VErr Unit :=
  match claims.not_before with
  | none => .error .missingClaim
  | some nbf =>
    if now < nbf - leeway then .error .notYetValid
    else
      match claims.expiration with
      | none => .error .missingClaim
      | some exp => if now > exp + leeway then .error .expired else .ok ()

/-- The issuer allow-list check of `validate`. -/
def checkIssuer (claims : Claims) (allowed : Option (List Issuer)) : Except VErr Unit :=
  match allowed with
  | none => .ok ()
  | some issuers =>
    match (claims.get "iss").bind JVal.asStr with
    | none => .error .unknownIssuer
    | some iss =>
      match Issuer.new iss with
      | .error _ => .error .invalidField
      | .ok issV => if ¬ issuers.contains issV then .error .unknownIssuer else .ok ()

/-- The audience allow-list check of `validate`: a string `aud` claim must
itself be allowed, an array `aud` claim must contain an allowed element. -/
def checkAudience (claims : Claims) (allowed : Option Audiences) : Except VErr Unit :=
  match allowed with
  | none => .ok ()
  | some audiences =>
    match claims.get "aud" with
    | none => .error .unknownAudience
    | some audVal =>
      match audVal.asStr with
      | some aud =>
        match ClientId.new aud with
        | .error _ => .error .invalidField
        | .ok cid => if ¬ audiences.containsId cid then .error .unknownAudience else .ok ()
      | none =>
        match audVal.asArray with
        | none => .error .unknownAudience
        | some arr =>
          let auds := arr.filterMap
            (fun v => match ClientId.new v with | .ok c => some c | .error _ => none)
          if ¬ auds.any (fun v => audiences.containsId v) then .error .unknownAudience
          else .ok ()

/-- `ValidationKey::validate`: verify the signature, then `nbf`/`exp`
against `now` with the symmetric leeway, then the issuer and audience
allow-lists when configured. -/
def ValidationKey.validate (vk : ValidationKey) (tok : Jwt) (opt : ValidationOptions)
    (now : Int) : Except VErr Claims :=
  if ¬ vk.sigOk tok then .error .signature
  else
    match checkTimes tok.claims opt.leeway now with
    | .error e => .error e
    | .ok _ =>
      match checkIssuer tok.claims opt.allowed_issuers with
      | .error e => .error e
      | .ok _ =>
        match checkAudience tok.claims opt.allowed_audiences with
        | .error e => .error e
        | .ok _ => .ok tok.claims

/-! ## Refresh-token store (`src/table/refresh_table.rs`)

The SQLite table is modelled as a list of rows; `prune_expired` runs
`delete from tokens where expires < now`. -/

/-- One row of the `tokens` table. -/
structure RefreshTokenRow where
  subscriber_id : String
  client_id : String
  refresh_token : String
  expires : Int
deriving DecidableEq, Repr

/-- `prune_expired`: keeps exactly the rows not matched by the SQL predicate
`expires < now` of the `delete` statement. -/
def prune_expired (now : Int) (table : List RefreshTokenRow) : List RefreshTokenRow :=
  table.filter (fun r => ! decide (r.expires < now))

/-- `find_refresh_token`: `select ... where client_id = c and
refresh_token = t and expires > now`, first match. -/
def find_refresh_token (now : Int) (table : List RefreshTokenRow) (t c : String) :
    Option RefreshTokenRow :=
  table.find? (fun r => r.client_id == c && r.refresh_token == t && decide (r.expires > now))

/-! ## RSA blind signatures (`common/src/rsa_blind.rs`)

The wrapper types, option constraints and the key-id check are translated
from the source.  The blinding arithmetic itself lives in the external
`blind_rsa_signatures` crate; it is modelled from the spec (§4.3, RFC 9474
style): blind = `em · r^e mod n`, sign = `(·)^d mod n`, unblind =
`· r⁻¹ mod n`, verify = `sig^e ≡ em (mod n)`, where `em` is the
hash-and-pad encoded-message function, kept abstract as a parameter. -/

/-- Hash choice of `BlindOptions`. -/
inductive BlindHash where
  | Sha256
  | Sha384
  | Sha512
deriving DecidableEq, Repr

/-- `BlindOptions` wire struct. -/
structure BlindOptions where
  hash : BlindHash
  deterministic : Bool
  salt_len : Option Nat
deriving DecidableEq, Repr

/-- The default options: SHA-384, non-deterministic, salt length = hash
output size (48 bytes). -/
def BlindOptions.defaults : BlindOptions :=
  { hash := .Sha384, deterministic := false, salt_len := some 48 }

/-- `TryFrom<BlindOptions> for Options`: the internal constraints.
Deterministic options must carry no salt length (treated as 0);
non-deterministic options must carry a positive one. -/
def BlindOptions.tryInto (o : BlindOptions) : Except String (BlindHash × Bool × Nat) :=
  if o.deterministic then
    match o.salt_len with
    | some _ => .error "salt_len must be None for deterministic"
    | none => .ok (o.hash, o.deterministic, 0)
  else
    match o.salt_len with
    | none => .error "salt_len must be Some for non-deterministic"
    | some k =>
      if k > 0 then .ok (o.hash, o.deterministic, k)
      else .error "salt_len must be greater than 0"

/-- Encoded-message function (hash + PSS-style padding of the external
crate), abstract: message, randomizer and options to a residue.  Theorems
hypothesize its range and, where the claim needs it, collision freeness. -/
def EmFun : Type := List Nat → List Nat → BlindOptions → Nat

/-- RSA public key: modulus, public exponent and the PKCS#1 DER encoding
produced by the external encoder (hashed by `key_id`). -/
structure RsaPublicKey where
  n : Nat
  e : Nat
  der : List Nat
deriving DecidableEq, Repr

/-- RSA private key with its public counterpart. -/
structure RsaPrivateKey where
  n : Nat
  e : Nat
  d : Nat
  pubDer : List Nat
deriving DecidableEq, Repr

/-- `RsaPrivateKey::to_public_key`. -/
def RsaPrivateKey.to_public_key (sk : RsaPrivateKey) : RsaPublicKey :=
  { n := sk.n, e := sk.e, der := sk.pubDer }

/-- `RsaPublicKey::key_id`: base64url-without-padding of SHA-256 over the
PKCS#1 DER public key. -/
def RsaPublicKey.key_id (pk : RsaPublicKey) : String := b64urlEncode (sha256 pk.der)

/-- `BlindedToken`: blinded message (as a residue mod `n`) plus options. -/
structure BlindedToken where
  blind_msg : Nat
  blind_opts : BlindOptions
deriving DecidableEq, Repr

/-- `BlindResult`: what `blind` hands back to the client.  The secret keeps
the blinding factor together with its modular inverse (which the external
crate recomputes during `finalize`). -/
structure BlindResult where
  blinded_token : BlindedToken
  blind_secret : Nat × Nat
  msg_randomizer : Option (List Nat)
deriving DecidableEq, Repr

/-- `BlindSignature` (server output): value plus signer key id. -/
structure BlindSignature where
  value : Nat
  key_id : String
deriving DecidableEq, Repr

/-- `UnblindedSignature`. -/
structure UnblindedSignature where
  value : Nat
  key_id : String
deriving DecidableEq, Repr

/-- `AnonymousToken`. -/
structure AnonymousToken where
  message : List Nat
  randomizer : List Nat
  signature : UnblindedSignature
  options : BlindOptions
deriving DecidableEq, Repr

/-- `RsaPublicKey::blind`: check the options, then blind the encoded message
with the factor `r` (drawn from the rng in the source, passed explicitly
here together with its inverse and the message randomizer). -/
def RsaPublicKey.blind (em : EmFun) (pk : RsaPublicKey) (message : List Nat)
    (r rinv : Nat) (randomizer : List Nat) (opts : BlindOptions) :
    Except String BlindResult :=
  match opts.tryInto with
  | .error err => .error err
  | .ok _ => .ok {
      blinded_token := {
        blind_msg := (em message randomizer opts * (r ^ pk.e % pk.n)) % pk.n
        blind_opts := opts }
      blind_secret := (r, rinv)
      msg_randomizer := some randomizer }

/-- `RsaPrivateKey::blind_sign`: check the options, raise the blinded
message to the private exponent, stamp the key id of the signer. -/
def RsaPrivateKey.blind_sign (sk : RsaPrivateKey) (bt : BlindedToken) :
    Except String BlindSignature :=
  match bt.blind_opts.tryInto with
  | .error err => .error err
  | .ok _ => .ok { value := bt.blind_msg ^ sk.d % sk.n, key_id := sk.to_public_key.key_id }

/-- `RsaPublicKey::unblind`: finalize by removing the blinding factor; a
missing message randomizer is a clean error (`ok_or_else`). -/
def RsaPublicKey.unblind (pk : RsaPublicKey) (blind_sig : BlindSignature)
    (br : BlindResult) (org_msg : List Nat) : Except String AnonymousToken :=
  match br.blinded_token.blind_opts.tryInto with
  | .error err => .error err
  | .ok _ =>
    match br.msg_randomizer with
    | none => .error "missing msg_randomizer"
    | some rnd => .ok {
        message := org_msg
        randomizer := rnd
        signature := { value := blind_sig.value * br.blind_secret.2 % pk.n
                       key_id := blind_sig.key_id }
        options := br.blinded_token.blind_opts }

/-- `RsaPublicKey::verify` with the cryptographic check abstracted: the
key-id comparison (`ensure!`) runs first, then the option conversion, and
only then the cryptographic verification. -/
def RsaPublicKey.verifyWith (cryptoOk : AnonymousToken → Bool) (pk : RsaPublicKey)
    (tok : AnonymousToken) : Except String Unit :=
  if pk.key_id ≠ tok.signature.key_id then .error "key_id mismatch"
  else
    match tok.options.tryInto with
    | .error err => .error err
    | .ok _ => if cryptoOk tok then .ok () else .error "invalid signature"

/-- The concrete cryptographic check: `sig^e ≡ em(message, randomizer) (mod n)`. -/
def rsaCryptoVerify (em : EmFun) (pk : RsaPublicKey) (tok : AnonymousToken) : Bool :=
  tok.signature.value ^ pk.e % pk.n == em tok.message tok.randomizer tok.options % pk.n

/-- `RsaPublicKey::verify`. -/
def RsaPublicKey.verify (em : EmFun) (pk : RsaPublicKey) (tok : AnonymousToken) :
    Except String Unit :=
  pk.verifyWith (rsaCryptoVerify em pk) tok

/-- A toy encoded-message function over the modulus 15, used to instantiate
the blind-signature theorems on concrete inputs. -/
def emToy : EmFun := fun m rd _ => (7 * m.sum + 3 * rd.sum + 1) % 15

/-- A toy RSA key: `n = 15 = 3 · 5`, `e = d = 3` (so `e · d = 9 ≡ 1` modulo
`λ(15) = 4`), with a one-byte stand-in for the DER encoding. -/
def rsaToy : RsaPrivateKey := { n := 15, e := 3, d := 3, pubDer := [9] }

/-! ## Admin API handlers (`server/src/apis/{update_user,delete_user}.rs`)

The handlers are pure functions of the request, the headers and the
outcomes of the injected collaborators (token verification and user-table
lookups).  Each returns the HTTP-level result together with the database
write it performs — `none` when no row is touched. -/

/-- `ADMIN_USERNAME` from `server/src/constants.rs`. -/
def ADMIN_USERNAME : String := "admin"

/-- `User` entity (the fields the handlers consult). -/
structure User where
  username : String
  subscriber_id : String
  is_admin : Bool
deriving DecidableEq, Repr

/-- `UpdateUserError`. -/
inductive UpdateUserError where
  | userUpdateFailed
  | unauthorizedUser
  | missingToken
  | invalidToken
  | changeAdminNameProhibited
deriving DecidableEq, Repr

/-- `DeleteUserError`. -/
inductive DeleteUserError where
  | userDeletionFailed
  | unauthorizedUser
  | missingToken
  | invalidToken
  | noSuchUser
  | deleteProhibitedUser
deriving DecidableEq, Repr

/-- `UpdateUserRequest.auth` (both fields optional). -/
structure UpdateUserRequest where
  username : Option String
  password : Option String
deriving DecidableEq, Repr

/-- Extract the compact JWT from an `Authorization` header value:
`bearer.split(' ')` must start with `Bearer`, the next fragment is the
token string. -/
def bearerToken (header : String) : Option String :=
  let parts := (splitChar ' ' header.data).map (fun cs => String.mk cs)
  match parts with
  | first :: rest => if first = "Bearer" then rest.head? else none
  | [] => none

/-- The database write performed by `update_user`. -/
structure UpdateAction where
  sub : SubscriberId
  new_username : Option String
  new_password : Option String
deriving DecidableEq, Repr

/-- `update_user` handler.  `verify_token` is `state.crypto.verify_token`,
`find_user` the user-table lookup by subscriber id, `update_ok` the outcome
of the table update; the second component of the result is the write
performed on the user table. -/
def update_user (verify_token : IdTokenStr → Except Unit Claims)
    (find_user : SubscriberId → Except Unit (Option User)) (update_ok : Bool)
    (authorization : Option String) (request : UpdateUserRequest) :
    Except UpdateUserError String × Option UpdateAction :=
  match authorization.bind bearerToken with
  | none => (.error .missingToken, none)
  | some tokStr =>
    match IdTokenStr.new tokStr with
    | .error _ => (.error .missingToken, none)
    | .ok id_token =>
      match verify_token id_token with
      | .error _ => (.error .invalidToken, none)
      | .ok claims =>
        match claims.subject with
        | none => (.error .invalidToken, none)
        | some s =>
          match SubscriberId.new s with
          | .error _ => (.error .invalidToken, none)
          | .ok sub =>
            match find_user sub with
            | .error _ => (.error .userUpdateFailed, none)
            | .ok none => (.error .unauthorizedUser, none)
            | .ok (some u) =>
              if u.username = ADMIN_USERNAME ∧ request.username.isSome then
                (.error .changeAdminNameProhibited, none)
              else
                let action : UpdateAction :=
                  { sub := sub, new_username := request.username
                    new_password := request.password }
                if update_ok then (.ok "ok. updated the user.", some action)
                else (.error .userUpdateFailed, some action)

/-- `delete_user` handler.  Collaborators as for `update_user`, plus the
lookup by username; the second component is the username whose row is
deleted. -/
def delete_user (verify_token : IdTokenStr → Except Unit Claims)
    (find_user_by_sub : SubscriberId → Except Unit (Option User))
    (find_user_by_name : String → Except Unit (Option User)) (delete_ok : Bool)
    (authorization : Option String) (target_username : String) :
    Except DeleteUserError String × Option String :=
  match authorization.bind bearerToken with
  | none => (.error .missingToken, none)
  | some tokStr =>
    match IdTokenStr.new tokStr with
    | .error _ => (.error .missingToken, none)
    | .ok id_token =>
      match verify_token id_token with
      | .error _ => (.error .invalidToken, none)
      | .ok claims =>
        -- `claims.custom.get("iad").and_then(as_bool).unwrap_or(false)`
        if ¬ (((claims.get "iad").bind JVal.asBool).getD false) then
          (.error .unauthorizedUser, none)
        else
          match ((claims.get "sub").bind JVal.asStr) with
          | none => (.error .invalidToken, none)
          | some s =>
            match SubscriberId.new s with
            | .error _ => (.error .invalidToken, none)
            | .ok sub =>
              match find_user_by_sub sub with
              | .error _ => (.error .userDeletionFailed, none)
              | .ok none => (.error .unauthorizedUser, none)
              | .ok (some request_user) =>
                if ¬ request_user.is_admin then (.error .invalidToken, none)
                else
                  match find_user_by_name target_username with
                  | .error _ => (.error .userDeletionFailed, none)
                  | .ok none => (.error .noSuchUser, none)
                  | .ok (some target_user) =>
                    if request_user.username = target_user.username ∨
                        target_user.username = ADMIN_USERNAME then
                      (.error .deleteProhibitedUser, none)
                    else if delete_ok then
                      (.ok "ok. deleted the user.", some target_username)
                    else (.error .userDeletionFailed, some target_username)

/-! ## Client blind-token expiry (`lib-client/src/auth_blind.rs`) -/

/-- Client-side error kinds used below. -/
inductive AuthError where
  | invalidExpireTimeBlindValidationKey
deriving DecidableEq, Repr

/-- `2 ^ 64`. -/
def U64_MOD : Nat := 18446744073709551616

/-- Rust `u64` subtraction under the wrapping (overflow-checks disabled)
semantics; an overflow-checked build panics instead when `b > a`. -/
def u64WrappingSub (a b : Nat) : Nat := (a % U64_MOD + (U64_MOD - b % U64_MOD)) % U64_MOD

/-- Rust `as i64` on a `u64` value: reinterpretation in two-complement form. -/
def i64OfU64 (x : Nat) : Int :=
  if x % U64_MOD < 2 ^ 63 then ((x % U64_MOD : Nat) : Int)
  else ((x % U64_MOD : Nat) : Int) - (U64_MOD : Int)

/-- `blind_remaining_seconds_until_expiration`: reads the stored
`blind_expires_at` slot (UNIX seconds, `u64`) and computes
`(expires_at - current) as i64`. -/
def blind_remaining_seconds_until_expiration (blind_expires_at : Option Nat)
    (current : Nat) : Except AuthError Int :=
  match blind_expires_at with
  | none => .error .invalidExpireTimeBlindValidationKey
  | some expires_at => .ok (i64OfU64 (u64WrappingSub expires_at current))

/-! ## Helper lemmas -/

/-- Splitting a list that does not contain the separator yields the list
itself as the only segment. -/
theorem splitChar_not_mem (sep : Char) (l : List Char) (h : sep ∉ l) :
    splitChar sep l = [l] := by
  induction l with
  | nil => rfl
  | cons c rest ih =>
    have hc : c ≠ sep := fun hcs => h (hcs ▸ List.mem_cons_self c rest)
    have hr : sep ∉ rest := fun hm => h (List.mem_cons_of_mem c hm)
    simp [splitChar, hc, ih hr]

/-- Rebuilding a string from its characters is the identity. -/
theorem string_mk_data (s : String) : String.mk s.data = s := rfl

/-- `Audiences::new` on a non-empty comma-free string: the audience set is
the singleton of that string. -/
theorem audiences_new_no_comma (s : String) (h1 : 1 ≤ s.length) (h2 : ',' ∉ s.data) :
    Audiences.new s = .ok ⟨[s]⟩ := by
  have hs : splitComma s.data = [s.data] := splitChar_not_mem ',' s.data h2
  simp [Audiences.new, hs, string_mk_data, listDedup, dedupGo, h1]

/-- Every `Alphanumeric` sample lies in the 62-character alphabet. -/
theorem alphanumericSample_mem (rng : Nat → Fin 62) (i : Nat) :
    alphanumericSample rng i ∈ alphanumericChars := by
  have hlen : alphanumericChars.length = 62 := by decide
  have hlt : ((rng i : Nat)) < alphanumericChars.length := by
    rw [hlen]; exact (rng i).isLt
  unfold alphanumericSample
  rw [List.getD_eq_getElem _ _ hlt]
  exact List.getElem_mem hlt

/-- `RefreshToken::generate` always succeeds, with the sampled string. -/
theorem refreshToken_generate_eq (rng : Nat → Fin 62) :
    RefreshToken.generate rng
      = .ok ⟨String.mk ((List.range REFRESH_TOKEN_LEN).map (alphanumericSample rng))⟩ := by
  simp [RefreshToken.generate, RefreshToken.new, String.length]

/-- The idealized signature check accepts the token built by `authorize`
under the validation key of the signing key. -/
theorem sigOk_of_authorize (sk : SigningKey) (tok : Jwt) (h1 : tok.alg = sk.alg)
    (h2 : tok.sig = { signerKey := sk.validation_key, signedAlg := sk.alg,
                      payload := tok.claims }) :
    sk.validation_key.sigOk tok = true := by
  cases sk <;> simp [ValidationKey.sigOk, SigningKey.validation_key, h2, SigningKey.alg] <;>
    simp [SigningKey.alg] at h1 <;> simp [h1]

/-! ## C2 — key id derivation -/

/-- C2: `key_id()` is the base64url-without-padding encoding of SHA-256 over
the compressed SEC1 point (ES256) or the 32-byte raw public key (Ed25519);
the validation key derived from a signing key has the key id of the public
key itself; and on the E3 Ed25519 JWK the key id is the expected literal. -/
theorem C2_key_id_derivation :
    (∀ pt : List Nat, (ValidationKey.es256 pt).key_id = b64urlEncode (sha256 pt)) ∧
    (∀ raw : List Nat, (ValidationKey.ed25519 raw).key_id = b64urlEncode (sha256 raw)) ∧
    (∀ sk : SigningKey, sk.validation_key.key_id = sk.public_key.key_id) ∧
    ((b64urlDecode "1ixMQcxO46PLlgQfYS46ivFd-n0CcDHSKUnuhm3i1O0").map
        (fun raw => (ValidationKey.ed25519 raw).key_id)
      = some "gjrE7ACMxgzYfFHgabgf4kLTg1eKIdsJ94AiFTFj1is") :=
  ⟨fun _ => rfl, fun _ => rfl, fun _ => rfl, by decide⟩

/-! ## C4 — refresh-token pruning -/

/-- C4 counterexample: a row whose expiry equals the current time survives
`prune_expired`, contradicting the claim that rows with
`expires_at ≤ now` are removed. -/
theorem C4_boundary_row_survives :
    prune_expired 100 [⟨"s1", "c1", "t1", 100⟩]
      = [({ subscriber_id := "s1", client_id := "c1", refresh_token := "t1",
            expires := 100 } : RefreshTokenRow)] ∧
    ((100 : Int) ≤ 100) := by
  constructor
  · rfl
  · decide

/-- C4 (amended): `prune_expired` deletes exactly the rows with
`expires < now`; a row survives iff it was present and `now ≤ expires`
(so a row with expiry equal to the current time is kept, not removed). -/
theorem C4_prune_expired_amended (now : Int) (rows : List RefreshTokenRow)
    (r : RefreshTokenRow) :
    r ∈ prune_expired now rows ↔ r ∈ rows ∧ now ≤ r.expires := by
  simp [prune_expired, List.mem_filter, not_lt]

/-- Concrete instance of the amended C4 statement. -/
theorem C4_prune_expired_amended_witness :
    (⟨"s1", "c1", "t1", 100⟩ : RefreshTokenRow) ∈
        prune_expired 100 [⟨"s1", "c1", "t1", 100⟩, ⟨"s2", "c2", "t2", 99⟩] ↔
      (⟨"s1", "c1", "t1", 100⟩ : RefreshTokenRow) ∈
          [(⟨"s1", "c1", "t1", 100⟩ : RefreshTokenRow), ⟨"s2", "c2", "t2", 99⟩] ∧
        (100 : Int) ≤ 100 :=
  C4_prune_expired_amended 100 [⟨"s1", "c1", "t1", 100⟩, ⟨"s2", "c2", "t2", 99⟩]
    ⟨"s1", "c1", "t1", 100⟩

/-! ## C5 — refresh-token shape -/

set_option maxRecDepth 8192 in
/-- C5 counterexample: the validated constructor accepts 256 asterisks
(a non-alphanumeric string of the right length), and JSON deserialization
accepts a 3-character string unchanged. -/
theorem C5_non_alphanumeric_accepted :
    (RefreshToken.new (String.mk (List.replicate 256 '*'))).isOk = true ∧
    ('*' ∉ alphanumericChars) ∧
    RefreshToken.deserialize "abc" = ⟨"abc"⟩ ∧
    ("abc".length ≠ 256) := by
  refine ⟨by decide, by decide, rfl, by decide⟩

/-- C5 (amended): `generate()` always returns 256 characters drawn from the
alphanumeric alphabet; the validated constructor accepts exactly the
strings of length 256 (with no character-class check); deserialization
performs no validation at all and accepts any string unchanged. -/
theorem C5_refresh_token_amended :
    (∀ rng : Nat → Fin 62, ∃ t : RefreshToken, RefreshToken.generate rng = .ok t ∧
      t.value.length = 256 ∧ ∀ c ∈ t.value.data, c ∈ alphanumericChars) ∧
    (∀ s : String, (RefreshToken.new s).isOk = true ↔ s.length = 256) ∧
    (∀ s : String, RefreshToken.deserialize s = ⟨s⟩) := by
  refine ⟨fun rng => ⟨_, refreshToken_generate_eq rng, ?_, ?_⟩, fun s => ?_, fun _ => rfl⟩
  · simp [String.length, REFRESH_TOKEN_LEN]
  · intro c hc
    simp only [String.data] at hc
    obtain ⟨i, _, rfl⟩ := List.mem_map.mp hc
    exact alphanumericSample_mem rng i
  · by_cases h : s.length = 256
    · simp [RefreshToken.new, REFRESH_TOKEN_LEN, h, Except.isOk, Except.toBool]
    · simp [RefreshToken.new, REFRESH_TOKEN_LEN, h, Except.isOk, Except.toBool]

/-- Concrete instance of the amended C5 statement. -/
theorem C5_refresh_token_amended_witness :
    ∃ t : RefreshToken, RefreshToken.generate (fun _ => (0 : Fin 62)) = .ok t ∧
      t.value.length = 256 ∧ ∀ c ∈ t.value.data, c ∈ alphanumericChars :=
  C5_refresh_token_amended.1 (fun _ => (0 : Fin 62))

/-! ## C9 — `Audiences::new` panics -/

/-- C9: `Audiences::new` calls `ClientId::new(segment).unwrap()`, so any
comma-separated input with an empty segment (including the empty string)
panics instead of returning the `InvalidField` failure that a direct
`ClientId::new` would produce. -/
theorem C9_audiences_new_empty_segment_panics :
    Audiences.new "" = .panicked ∧
    Audiences.new "a," = .panicked ∧
    Audiences.new "a,,b" = .panicked ∧
    ClientId.new "" = .error .invalidField := by
  refine ⟨by decide, by decide, by decide, by decide⟩

/-! ## C10 — remaining seconds until blind-key expiry -/

/-- C10 counterexample: with `expires_at = 2^63` and `now = 0` the stored
difference fits `u64` but the `as i64` cast wraps to the negative value
`-(2^63)` instead of returning the true difference `2^63` (no clamping). -/
theorem C10_cast_wraps :
    blind_remaining_seconds_until_expiration (some (2 ^ 63)) 0 = .ok (-(2 ^ 63 : Int)) ∧
    ¬ (((2 ^ 63 : Nat) : Int) - ((0 : Nat) : Int) = -(2 ^ 63 : Int)) := by
  refine ⟨by decide, by decide⟩

/-- C10 (amended): for stored `u64` values, the computed value is the
two-complement reinterpretation of the wrapping `u64` subtraction, which
equals the true difference `expires_at - now` exactly when that difference
lies in `[-(2^63), 2^63)`; in particular it is the correct negative
difference when `now` is past `expires_at` by less than `2^63` (under the
wrapping overflow semantics; an overflow-checked build panics there). -/
theorem C10_remaining_amended (e c : Nat) (_he : e < U64_MOD) (_hc : c < U64_MOD)
    (hlo : -(2 ^ 63 : Int) ≤ (e : Int) - (c : Int)) (hhi : (e : Int) - (c : Int) < 2 ^ 63) :
    blind_remaining_seconds_until_expiration (some e) c = .ok ((e : Int) - (c : Int)) := by
  simp only [blind_remaining_seconds_until_expiration, u64WrappingSub, i64OfU64, U64_MOD,
    Except.ok.injEq] at *
  split <;> omega

/-- Concrete instance of the amended C10 statement: ten seconds past the
expiry the result is `-10`. -/
theorem C10_remaining_amended_witness :
    blind_remaining_seconds_until_expiration (some 10) 20 = .ok (-10 : Int) := by
  have h := C10_remaining_amended 10 20 (by decide) (by decide) (by decide) (by decide)
  simpa using h

/-! ## C6 — admin username is immutable -/

/-- C6: when the bearer token is valid and its subject resolves to the user
named `admin`, an update request carrying a new username fails with
`ChangeAdminNameProhibited` and no table write is performed. -/
theorem C6_update_user_admin_name_prohibited
    (verify_token : IdTokenStr → Except Unit Claims)
    (find_user : SubscriberId → Except Unit (Option User)) (update_ok : Bool)
    (authorization : Option String) (request : UpdateUserRequest)
    (tokStr : String) (tok : IdTokenStr) (claims : Claims) (s : String)
    (sub : SubscriberId) (u : User)
    (h1 : authorization.bind bearerToken = some tokStr)
    (h2 : IdTokenStr.new tokStr = .ok tok)
    (h3 : verify_token tok = .ok claims)
    (h4 : claims.subject = some s)
    (h5 : SubscriberId.new s = .ok sub)
    (h6 : find_user sub = .ok (some u))
    (h7 : u.username = ADMIN_USERNAME)
    (h8 : request.username.isSome = true) :
    update_user verify_token find_user update_ok authorization request
      = (.error .changeAdminNameProhibited, none) := by
  unfold update_user
  rw [h1]
  simp [h2, h3, h4, h5, h6, h7, h8]

/-- Concrete instance of C6: the admin bearer asking to rename itself. -/
theorem C6_update_user_admin_name_witness :
    update_user
      (fun _ => .ok ⟨some 2000, some 0, some 1000, some "sid-admin", []⟩)
      (fun _ => .ok (some ⟨"admin", "sid-admin", true⟩)) true
      (some "Bearer tok1") ⟨some "other", none⟩
      = (.error .changeAdminNameProhibited, none) :=
  C6_update_user_admin_name_prohibited
    (fun _ => .ok ⟨some 2000, some 0, some 1000, some "sid-admin", []⟩)
    (fun _ => .ok (some ⟨"admin", "sid-admin", true⟩)) true
    (some "Bearer tok1") ⟨some "other", none⟩
    "tok1" ⟨"tok1"⟩ ⟨some 2000, some 0, some 1000, some "sid-admin", []⟩
    "sid-admin" ⟨"sid-admin"⟩ ⟨"admin", "sid-admin", true⟩
    (by decide) (by decide) rfl rfl (by decide) rfl rfl rfl

/-! ## C7 — delete-user protections -/

/-- C7: with a valid admin bearer token, deleting a target that is the
caller itself or is the reserved `admin` record fails with
`DeleteProhibitedUser` and no row is deleted. -/
theorem C7_delete_user_prohibited
    (verify_token : IdTokenStr → Except Unit Claims)
    (find_user_by_sub : SubscriberId → Except Unit (Option User))
    (find_user_by_name : String → Except Unit (Option User)) (delete_ok : Bool)
    (authorization : Option String) (target_username : String)
    (tokStr : String) (tok : IdTokenStr) (claims : Claims) (s : String)
    (sub : SubscriberId) (request_user target_user : User)
    (h1 : authorization.bind bearerToken = some tokStr)
    (h2 : IdTokenStr.new tokStr = .ok tok)
    (h3 : verify_token tok = .ok claims)
    (h4 : ((claims.get "iad").bind JVal.asBool).getD false = true)
    (h5 : (claims.get "sub").bind JVal.asStr = some s)
    (h6 : SubscriberId.new s = .ok sub)
    (h7 : find_user_by_sub sub = .ok (some request_user))
    (h8 : request_user.is_admin = true)
    (h9 : find_user_by_name target_username = .ok (some target_user))
    (h10 : request_user.username = target_user.username ∨
      target_user.username = ADMIN_USERNAME) :
    delete_user verify_token find_user_by_sub find_user_by_name delete_ok
      authorization target_username = (.error .deleteProhibitedUser, none) := by
  unfold delete_user
  rw [h1]
  rcases h10 with h10 | h10 <;> simp [h2, h3, h4, h5, h6, h7, h8, h9, h10]

/-- Concrete instance of C7 (scenario E6): the admin deleting `admin`. -/
theorem C7_delete_user_prohibited_witness :
    delete_user
      (fun _ => .ok ⟨some 2000, some 0, some 1000, some "sid-admin",
        [("iad", .jbool true), ("sub", .jstr "sid-admin")]⟩)
      (fun _ => .ok (some ⟨"admin", "sid-admin", true⟩))
      (fun _ => .ok (some ⟨"admin", "sid-admin", true⟩)) true
      (some "Bearer tok1") "admin" = (.error .deleteProhibitedUser, none) :=
  C7_delete_user_prohibited
    (fun _ => .ok ⟨some 2000, some 0, some 1000, some "sid-admin",
      [("iad", .jbool true), ("sub", .jstr "sid-admin")]⟩)
    (fun _ => .ok (some ⟨"admin", "sid-admin", true⟩))
    (fun _ => .ok (some ⟨"admin", "sid-admin", true⟩)) true
    (some "Bearer tok1") "admin"
    "tok1" ⟨"tok1"⟩
    ⟨some 2000, some 0, some 1000, some "sid-admin",
      [("iad", .jbool true), ("sub", .jstr "sid-admin")]⟩
    "sid-admin" ⟨"sid-admin"⟩ ⟨"admin", "sid-admin", true⟩ ⟨"admin", "sid-admin", true⟩
    (by decide) (by decide) rfl (by decide) (by decide) (by decide) rfl rfl rfl
    (Or.inr rfl)

/-! ## C8 — key-id check precedes cryptographic verification -/

/-- C8: when the key id of the token signature differs from the key id of
the public key, `verify` fails with the key-id mismatch error whatever the
cryptographic check would say — the check runs before any cryptographic
verification (the result is independent of the crypto predicate and of the
encoded-message function). -/
theorem C8_verify_kid_checked_first (pk : RsaPublicKey) (tok : AnonymousToken)
    (h : pk.key_id ≠ tok.signature.key_id) :
    (∀ cryptoOk : AnonymousToken → Bool,
        pk.verifyWith cryptoOk tok = .error "key_id mismatch") ∧
    (∀ em : EmFun, pk.verify em tok = .error "key_id mismatch") := by
  constructor
  · intro cryptoOk
    simp [RsaPublicKey.verifyWith, h]
  · intro em
    simp [RsaPublicKey.verify, RsaPublicKey.verifyWith, h]

/-- Concrete instance of C8: a token stamped with a foreign key id. -/
theorem C8_verify_kid_checked_first_witness :
    RsaPublicKey.verify (fun _ _ _ => 0) ⟨15, 3, [1]⟩
      ⟨[1], [2], ⟨14, "wrong-kid"⟩, BlindOptions.defaults⟩ = .error "key_id mismatch" :=
  (C8_verify_kid_checked_first ⟨15, 3, [1]⟩
    ⟨[1], [2], ⟨14, "wrong-kid"⟩, BlindOptions.defaults⟩ (by decide)).2 (fun _ _ _ => 0)

/-! ## C1 — issue/validate round trip -/

/-- `validate` with the default options succeeds on a token whose signature
check passes and whose time claims bracket `now` as `authorize` sets them. -/
theorem validate_default_ok (vk : ValidationKey) (tok : Jwt) (now nbf e : Int)
    (hsig : vk.sigOk tok = true)
    (hnbf : tok.claims.not_before = some nbf)
    (hexp : tok.claims.expiration = some e)
    (h1 : ¬ now < nbf - 30) (h2 : ¬ now > e + 30) :
    vk.validate tok ValidationOptions.default now = .ok tok.claims := by
  have ht : checkTimes tok.claims (30 : Int) now = .ok () := by
    simp [checkTimes, hnbf, hexp, h1, h2]
  unfold ValidationKey.validate
  simp [hsig, ValidationOptions.default, ht, checkIssuer, checkAudience]

/-- C1 (amended): for every signing key, instant, subscriber, issuer, admin
flag and refresh flag, and every valid client id **that contains no
comma**, `authorize` succeeds and the issued token validates under the
derived validation key with default options; the claims carry the issuer,
the subscriber (as both `sub` entries), `aud = [client_id]`,
`iad = admin`, `iat = now`, `exp = now + 30 min` and `nbf = now - 10 min`.
(For a client id containing a comma the audience is the set of its
comma-separated fragments instead, see the counterexample.) -/
theorem C1_authorize_validate (sk : SigningKey) (now : Int) (sub : SubscriberId)
    (cid : ClientId) (iss : Issuer) (admin refresh : Bool) (rng : Nat → Fin 62)
    (hvalid : 1 ≤ cid.value.length) (hnc : ',' ∉ cid.value.data) :
    ∃ body : TokenBody,
      sk.authorize now sub cid iss admin refresh rng = .ok (.ok body) ∧
      sk.validation_key.validate body.id ValidationOptions.default now
        = .ok body.id.claims ∧
      body.id.claims.get "iss" = some (.jstr iss.value) ∧
      body.id.claims.get "sub" = some (.jstr sub.value) ∧
      body.id.claims.subject = some sub.value ∧
      body.id.claims.get "aud" = some (.jarr [cid.value]) ∧
      body.id.claims.get "iad" = some (.jbool admin) ∧
      body.id.claims.issued_at = some now ∧
      body.id.claims.expiration = some (now + 30 * 60) ∧
      body.id.claims.not_before = some (now - 10 * 60) := by
  have haud : Audiences.new cid.value = .ok ⟨[cid.value]⟩ :=
    audiences_new_no_comma cid.value hvalid hnc
  refine ⟨{
      id := {
        alg := sk.alg
        kid := some sk.validation_key.key_id
        typ := "JWT"
        claims := {
          expiration := some (now + (JWT_DURATION_MINS : Int) * 60)
          not_before := some (now - 10 * 60)
          issued_at := some now
          subject := some sub.value
          custom := [("iss", .jstr iss.value), ("sub", .jstr sub.value),
                     ("aud", .jarr [cid.value]), ("iad", .jbool admin)] }
        sig := {
          signerKey := sk.validation_key
          signedAlg := sk.alg
          payload := {
            expiration := some (now + (JWT_DURATION_MINS : Int) * 60)
            not_before := some (now - 10 * 60)
            issued_at := some now
            subject := some sub.value
            custom := [("iss", .jstr iss.value), ("sub", .jstr sub.value),
                       ("aud", .jarr [cid.value]), ("iad", .jbool admin)] } } }
      refresh := if refresh then
          some ⟨String.mk ((List.range REFRESH_TOKEN_LEN).map (alphanumericSample rng))⟩
        else none },
    ?_, ?_, rfl, rfl, rfl, rfl, rfl, rfl, ?_, rfl⟩
  · unfold SigningKey.authorize
    rw [haud]
    cases refresh with
    | false => rfl
    | true =>
      rw [refreshToken_generate_eq rng]
      rfl
  · exact validate_default_ok sk.validation_key _ now (now - 10 * 60)
      (now + (JWT_DURATION_MINS : Int) * 60)
      (sigOk_of_authorize sk _ rfl rfl) rfl rfl (by omega)
      (by unfold JWT_DURATION_MINS; push_cast; omega)
  · norm_num [JWT_DURATION_MINS]

/-- Concrete instance of the amended C1 statement. -/
theorem C1_authorize_validate_witness :
    ∃ body : TokenBody,
      SigningKey.authorize (.ed25519 [1] [2]) 1000 ⟨"u1"⟩ ⟨"client_id1"⟩
        ⟨"https://auth.example.com/v1.0"⟩ true true (fun _ => (0 : Fin 62))
        = .ok (.ok body) ∧
      (SigningKey.ed25519 [1] [2]).validation_key.validate body.id
        ValidationOptions.default 1000 = .ok body.id.claims ∧
      body.id.claims.get "iss" = some (.jstr "https://auth.example.com/v1.0") ∧
      body.id.claims.get "sub" = some (.jstr "u1") ∧
      body.id.claims.subject = some "u1" ∧
      body.id.claims.get "aud" = some (.jarr ["client_id1"]) ∧
      body.id.claims.get "iad" = some (.jbool true) ∧
      body.id.claims.issued_at = some 1000 ∧
      body.id.claims.expiration = some (1000 + 30 * 60) ∧
      body.id.claims.not_before = some (1000 - 10 * 60) :=
  C1_authorize_validate (.ed25519 [1] [2]) 1000 ⟨"u1"⟩ ⟨"client_id1"⟩
    ⟨"https://auth.example.com/v1.0"⟩ true true (fun _ => (0 : Fin 62))
    (by decide) (by decide)

/-! ## C3 — blind-signature round trip -/

/-- RSA injectivity: raising to the public exponent is injective modulo `n`
whenever decryption inverts encryption on all residues. -/
theorem rsa_pow_injective (n e d : Nat)
    (hrsa : ∀ x, x < n → x ^ (e * d) % n = x) :
    ∀ x y, x < n → y < n → x ^ e % n = y ^ e % n → x = y := by
  intro x y hx hy hxy
  have hxe : x ^ (e * d) % n = (x ^ e % n) ^ d % n := by
    rw [← Nat.pow_mod, ← pow_mul]
  have hye : y ^ (e * d) % n = (y ^ e % n) ^ d % n := by
    rw [← Nat.pow_mod, ← pow_mul]
  calc x = x ^ (e * d) % n := (hrsa x hx).symm
    _ = (x ^ e % n) ^ d % n := hxe
    _ = (y ^ e % n) ^ d % n := by rw [hxy]
    _ = y ^ (e * d) % n := hye.symm
    _ = y := hrsa y hy

/-- With a matching key id and valid options, `verify` reduces to the
cryptographic check. -/
theorem verifyWith_reduces (cryptoOk : AnonymousToken → Bool) (pk : RsaPublicKey)
    (tok : AnonymousToken) (o : BlindHash × Bool × Nat)
    (hkid : tok.signature.key_id = pk.key_id) (ho : tok.options.tryInto = .ok o) :
    pk.verifyWith cryptoOk tok
      = if cryptoOk tok then .ok () else .error "invalid signature" := by
  unfold RsaPublicKey.verifyWith
  simp [hkid, ho]

/-- With a matching key id and valid options, `verify` succeeds exactly when
the cryptographic check does. -/
theorem verify_iff (em : EmFun) (pk : RsaPublicKey) (tok : AnonymousToken)
    (o : BlindHash × Bool × Nat)
    (hkid : tok.signature.key_id = pk.key_id) (ho : tok.options.tryInto = .ok o) :
    pk.verify em tok = .ok () ↔ rsaCryptoVerify em pk tok = true := by
  unfold RsaPublicKey.verify
  rw [verifyWith_reduces _ _ _ o hkid ho]
  cases h : rsaCryptoVerify em pk tok <;> simp

/-- The unblinded signature value equals the plain RSA signature of the
encoded message: the blinding factor cancels. -/
theorem unblind_cancels (n e d E r rinv : Nat) (_hn : 1 < n)
    (hrsa : ∀ x, x < n → x ^ (e * d) % n = x)
    (hrlt : r < n) (hr : r * rinv % n = 1) (_hE : E < n) :
    ((E * (r ^ e % n)) % n) ^ d % n * rinv % n = E ^ d % n := by
  have hrd : (r ^ e % n) ^ d % n = r := by
    rw [← Nat.pow_mod, ← pow_mul]
    exact hrsa r hrlt
  have step1 : ((E * (r ^ e % n)) % n) ^ d % n = E ^ d % n * r % n := by
    calc ((E * (r ^ e % n)) % n) ^ d % n
        = (E * (r ^ e % n)) ^ d % n := by rw [← Nat.pow_mod]
      _ = (E ^ d * (r ^ e % n) ^ d) % n := by rw [mul_pow]
      _ = (E ^ d % n) * ((r ^ e % n) ^ d % n) % n := by rw [← Nat.mul_mod]
      _ = E ^ d % n * r % n := by rw [hrd]
  rw [step1]
  calc E ^ d % n * r % n * rinv % n
      = E ^ d % n * r * rinv % n := by rw [Nat.mod_mul_mod]
    _ = E ^ d % n * (r * rinv) % n := by rw [mul_assoc]
    _ = E ^ d % n * (r * rinv % n) % n := by rw [Nat.mul_mod_mod]
    _ = E ^ d % n * 1 % n := by rw [hr]
    _ = E ^ d % n % n := by rw [mul_one]
    _ = E ^ d % n := Nat.mod_mod_of_dvd _ (dvd_refl n)

/-- C3 (spec-modelled blind-RSA arithmetic): for options satisfying the
internal constraints and any message, blinding with the public key,
blind-signing with the private key, unblinding and verifying succeeds; and
with the encoded-message (hash) function understood as collision-free on
the inputs concerned, any change to the signature value, the message or
the randomizer makes verification fail.  The RSA correctness hypothesis
`x^(e·d) ≡ x (mod n)` is the defining property of an RSA key pair; the
encoded-message range hypothesis reflects that PSS encodings are reduced
residues. -/
theorem C3_blind_signature_roundtrip (em : EmFun) (sk : RsaPrivateKey)
    (msg : List Nat) (r rinv : Nat) (rnd : List Nat) (opts : BlindOptions)
    (o : BlindHash × Bool × Nat) (ho : opts.tryInto = .ok o)
    (hn : 1 < sk.n)
    (hrsa : ∀ x, x < sk.n → x ^ (sk.e * sk.d) % sk.n = x)
    (hrlt : r < sk.n) (hr : r * rinv % sk.n = 1)
    (hem : ∀ m rd oo, em m rd oo < sk.n) :
    ∃ br bs tok,
      sk.to_public_key.blind em msg r rinv rnd opts = .ok br ∧
      sk.blind_sign br.blinded_token = .ok bs ∧
      sk.to_public_key.unblind bs br msg = .ok tok ∧
      sk.to_public_key.verify em tok = .ok () ∧
      (∀ sig2, sig2 < sk.n → sig2 ≠ tok.signature.value →
        sk.to_public_key.verify em
          { tok with signature := { value := sig2, key_id := tok.signature.key_id } }
          ≠ .ok ()) ∧
      (∀ msg2 rnd2, em msg2 rnd2 opts % sk.n ≠ em msg rnd opts % sk.n →
        sk.to_public_key.verify em { tok with message := msg2, randomizer := rnd2 }
          ≠ .ok ()) := by
  have hn0 : 0 < sk.n := Nat.lt_of_lt_of_le Nat.zero_lt_one (Nat.le_of_lt hn)
  have hE : em msg rnd opts < sk.n := hem msg rnd opts
  have hu : ((em msg rnd opts * (r ^ sk.e % sk.n)) % sk.n) ^ sk.d % sk.n * rinv % sk.n
      = em msg rnd opts ^ sk.d % sk.n :=
    unblind_cancels sk.n sk.e sk.d (em msg rnd opts) r rinv hn hrsa hrlt hr hE
  have heq : (em msg rnd opts ^ sk.d % sk.n) ^ sk.e % sk.n = em msg rnd opts % sk.n := by
    rw [← Nat.pow_mod, ← pow_mul, mul_comm sk.d sk.e]
    rw [hrsa (em msg rnd opts) hE]
    exact (Nat.mod_eq_of_lt hE).symm
  refine ⟨{
      blinded_token := {
        blind_msg := (em msg rnd opts * (r ^ sk.e % sk.n)) % sk.n
        blind_opts := opts }
      blind_secret := (r, rinv)
      msg_randomizer := some rnd },
    { value := ((em msg rnd opts * (r ^ sk.e % sk.n)) % sk.n) ^ sk.d % sk.n
      key_id := sk.to_public_key.key_id },
    { message := msg
      randomizer := rnd
      signature := {
        value := ((em msg rnd opts * (r ^ sk.e % sk.n)) % sk.n) ^ sk.d % sk.n * rinv % sk.n
        key_id := sk.to_public_key.key_id }
      options := opts },
    ?_, ?_, ?_, ?_, ?_, ?_⟩
  · unfold RsaPublicKey.blind
    rw [ho]
    rfl
  · unfold RsaPrivateKey.blind_sign
    rw [ho]
  · unfold RsaPublicKey.unblind
    rw [ho]
    rfl
  · -- verification of the honest token
    apply (verify_iff em sk.to_public_key _ o rfl ho).mpr
    simp only [rsaCryptoVerify, RsaPrivateKey.to_public_key, beq_iff_eq]
    rw [hu]
    exact heq
  · -- a different signature value fails
    intro sig2 hlt hne hok
    have hcv := (verify_iff em sk.to_public_key _ o rfl ho).mp hok
    simp only [rsaCryptoVerify, RsaPrivateKey.to_public_key, beq_iff_eq] at hcv
    -- hcv : sig2 ^ e % n = em msg rnd opts % n
    apply hne
    have hsiglt : em msg rnd opts ^ sk.d % sk.n < sk.n := Nat.mod_lt _ hn0
    have hs2 : sig2 = em msg rnd opts ^ sk.d % sk.n :=
      rsa_pow_injective sk.n sk.e sk.d hrsa sig2 (em msg rnd opts ^ sk.d % sk.n)
        hlt hsiglt (by rw [hcv, heq])
    rw [hs2, hu]
  · -- a different message or randomizer fails
    intro msg2 rnd2 hne hok
    have hcv := (verify_iff em sk.to_public_key _ o rfl ho).mp hok
    simp only [rsaCryptoVerify, RsaPrivateKey.to_public_key, beq_iff_eq] at hcv
    -- hcv : S ^ e % n = em msg2 rnd2 opts % n with S the honest signature value
    rw [hu, heq] at hcv
    exact hne hcv.symm

/-- Concrete instance of C3 on the toy RSA key and encoded-message
function. -/
theorem C3_blind_signature_roundtrip_witness :
    ∃ br bs tok,
      rsaToy.to_public_key.blind emToy [1] 2 8 [2] BlindOptions.defaults = .ok br ∧
      rsaToy.blind_sign br.blinded_token = .ok bs ∧
      rsaToy.to_public_key.unblind bs br [1] = .ok tok ∧
      rsaToy.to_public_key.verify emToy tok = .ok () ∧
      (∀ sig2, sig2 < rsaToy.n → sig2 ≠ tok.signature.value →
        rsaToy.to_public_key.verify emToy
          { tok with signature := { value := sig2, key_id := tok.signature.key_id } }
          ≠ .ok ()) ∧
      (∀ msg2 rnd2, emToy msg2 rnd2 BlindOptions.defaults % rsaToy.n
          ≠ emToy [1] [2] BlindOptions.defaults % rsaToy.n →
        rsaToy.to_public_key.verify emToy { tok with message := msg2, randomizer := rnd2 }
          ≠ .ok ()) :=
  C3_blind_signature_roundtrip emToy rsaToy [1] 2 8 [2] BlindOptions.defaults
    (.Sha384, false, 48) (by decide) (by decide) (by decide) (by decide) (by decide)
    (fun m rd oo => Nat.mod_lt _ (by decide))

/-- C1 counterexample: the client id `"x,y"` is a valid `ClientId` (it is
non-empty), but the `aud` claim of the issued token is the two-element
array `["x", "y"]` — `Audiences::new` splits the client id on commas — and
not the single-element array `["x,y"]` the claim requires. -/
theorem C1_aud_not_singleton :
    ClientId.new "x,y" = .ok ⟨"x,y"⟩ ∧
    (match SigningKey.authorize (.ed25519 [1] [2]) 1000 ⟨"u1"⟩ ⟨"x,y"⟩
        ⟨"https://auth.example.com/v1.0"⟩ false false (fun _ => (0 : Fin 62)) with
      | .ok (.ok body) => body.id.claims.get "aud"
      | _ => none) = some (.jarr ["x", "y"]) ∧
    some (JVal.jarr ["x", "y"]) ≠ some (JVal.jarr ["x,y"]) := by
  refine ⟨by decide, by decide, by decide⟩

end TokenServer
